import Mathlib

/-!
Verification development for the rvc-serverless repository.

The definitions below are a shallow embedding of the job-orchestration and
model-caching layer of `src/src/handler.py` (the RunPod serverless handler,
which is the variant implementing the versioned S3 lookup), together with
the `f0_method` validation list of the top-level `src/handler.py`.

File contents are modelled as lists of bytes (`Fin 256`), the local
filesystem and the S3 store as association lists from path/key to contents,
and the inference engine (`VoiceConverter.convert_audio`) as an opaque
function parameter that may fail (Python exception = `Except.error`) and
transforms the filesystem (it is expected to write the output file as a
side effect).  Wall-clock timing is abstracted (durations are reported
as 0), and the exact CPython `binascii` error message for a malformed
base64 payload is abstracted to a fixed string; neither is relevant to
any property proved here.
-/

abbrev Byte := Fin 256

/-- The base64 alphabet used by Python's `base64.b64encode`. -/
def b64chars : List Char :=
  "ABCDEFGHIJKLMNOPQRSTUVWXYZabcdefghijklmnopqrstuvwxyz0123456789+/".toList

/-- The character encoding a 6-bit group. -/
def encChar (v : Fin 64) : Char := b64chars.getD v.val 'A'

/-- Inverse of `encChar`: the 6-bit value of an alphabet character. -/
def decChar : Char → Option (Fin 64)
  | 'A' => some 0 | 'B' => some 1 | 'C' => some 2 | 'D' => some 3
  | 'E' => some 4 | 'F' => some 5 | 'G' => some 6 | 'H' => some 7
  | 'I' => some 8 | 'J' => some 9 | 'K' => some 10 | 'L' => some 11
  | 'M' => some 12 | 'N' => some 13 | 'O' => some 14 | 'P' => some 15
  | 'Q' => some 16 | 'R' => some 17 | 'S' => some 18 | 'T' => some 19
  | 'U' => some 20 | 'V' => some 21 | 'W' => some 22 | 'X' => some 23
  | 'Y' => some 24 | 'Z' => some 25 | 'a' => some 26 | 'b' => some 27
  | 'c' => some 28 | 'd' => some 29 | 'e' => some 30 | 'f' => some 31
  | 'g' => some 32 | 'h' => some 33 | 'i' => some 34 | 'j' => some 35
  | 'k' => some 36 | 'l' => some 37 | 'm' => some 38 | 'n' => some 39
  | 'o' => some 40 | 'p' => some 41 | 'q' => some 42 | 'r' => some 43
  | 's' => some 44 | 't' => some 45 | 'u' => some 46 | 'v' => some 47
  | 'w' => some 48 | 'x' => some 49 | 'y' => some 50 | 'z' => some 51
  | '0' => some 52 | '1' => some 53 | '2' => some 54 | '3' => some 55
  | '4' => some 56 | '5' => some 57 | '6' => some 58 | '7' => some 59
  | '8' => some 60 | '9' => some 61 | '+' => some 62 | '/' => some 63
  | _ => none

def zByte : Byte := ⟨0, by omega⟩

/-- First output character of a 3-byte group: high 6 bits of byte 1. -/
def ec1 (b1 : Byte) : Fin 64 := ⟨b1.val / 4, by have := b1.isLt; omega⟩

/-- Second output character: low 2 bits of byte 1, high 4 bits of byte 2. -/
def ec2 (b1 b2 : Byte) : Fin 64 :=
  ⟨b1.val % 4 * 16 + b2.val / 16, by have := b1.isLt; have := b2.isLt; omega⟩

/-- Third output character: low 4 bits of byte 2, high 2 bits of byte 3. -/
def ec3 (b2 b3 : Byte) : Fin 64 :=
  ⟨b2.val % 16 * 4 + b3.val / 64, by have := b2.isLt; have := b3.isLt; omega⟩

/-- Fourth output character: low 6 bits of byte 3. -/
def ec4 (b3 : Byte) : Fin 64 := ⟨b3.val % 64, by have := b3.isLt; omega⟩

/-- First decoded byte of a 4-character group. -/
def db1 (v1 v2 : Fin 64) : Byte :=
  ⟨v1.val * 4 + v2.val / 16, by have := v1.isLt; have := v2.isLt; omega⟩

/-- Second decoded byte of a 4-character group. -/
def db2 (v2 v3 : Fin 64) : Byte :=
  ⟨v2.val % 16 * 16 + v3.val / 4, by have := v2.isLt; have := v3.isLt; omega⟩

/-- Third decoded byte of a 4-character group. -/
def db3 (v3 v4 : Fin 64) : Byte :=
  ⟨v3.val % 4 * 64 + v4.val, by have := v3.isLt; have := v4.isLt; omega⟩

/-- Python `base64.b64encode` over a byte list, producing the character list
of the resulting ASCII string (3 bytes to 4 characters, `=`-padded). -/
def b64encodeL : List Byte → List Char
  | [] => []
  | [b1] => [encChar (ec1 b1), encChar (ec2 b1 zByte), '=', '=']
  | [b1, b2] => [encChar (ec1 b1), encChar (ec2 b1 b2), encChar (ec3 b2 zByte), '=']
  | b1 :: b2 :: b3 :: rest =>
    encChar (ec1 b1) :: encChar (ec2 b1 b2) :: encChar (ec3 b2 b3) ::
      encChar (ec4 b3) :: b64encodeL rest

/-- Python `base64.b64decode` over a character list: processes four
characters at a time, accepts `=`-padding only at the end, fails
(Python raises `binascii.Error`) on wrong length or a non-alphabet
character. -/
def b64decodeL : List Char → Option (List Byte)
  | [] => some []
  | c1 :: c2 :: c3 :: c4 :: rest =>
    match decChar c1, decChar c2 with
    | some v1, some v2 =>
      if c3 = '=' then
        if c4 = '=' ∧ rest = [] then some [db1 v1 v2] else none
      else
        match decChar c3 with
        | some v3 =>
          if c4 = '=' then
            if rest = [] then some [db1 v1 v2, db2 v2 v3] else none
          else
            match decChar c4 with
            | some v4 =>
              match b64decodeL rest with
              | some bs => some (db1 v1 v2 :: db2 v2 v3 :: db3 v3 v4 :: bs)
              | none => none
            | none => none
        | none => none
    | _, _ => none
  | _ => none

/-- `base64.b64encode(...).decode()` as a Lean `String`. -/
def b64encode (bs : List Byte) : String := ⟨b64encodeL bs⟩

/-- `base64.b64decode` on a Lean `String`. -/
def b64decode (s : String) : Option (List Byte) := b64decodeL s.data

/-!
Filesystem and S3 model.  The local filesystem is an association list from
absolute path to file contents; a path written later shadows an earlier
entry (`FS.write` conses to the front and `FS.lookup` finds the first
match), and `FS.remove` (`os.unlink`) removes every entry at a path.
The S3 bucket (`synthica-rvc-models`) is a fixed association list from
object key to blob; `s3Get` models `s3.download_file` succeeding exactly
when the key is present.
-/

structure FS where
  files : List (String × List Byte)
deriving DecidableEq

def FS.lookup (fs : FS) (p : String) : Option (List Byte) :=
  match fs.files.find? (fun e => e.1 == p) with
  | some e => some e.2
  | none => none

/-- Model of `os.path.exists`. -/
def FS.hasFile (fs : FS) (p : String) : Bool :=
  (fs.files.find? (fun e => e.1 == p)).isSome

/-- Model of reading a file's bytes (defined only where the file exists;
returns `[]` elsewhere, in which case `os.path.getsize` reads 0). -/
def FS.read (fs : FS) (p : String) : List Byte :=
  match fs.lookup p with
  | some bs => bs
  | none => []

/-- Model of creating or overwriting a file. -/
def FS.write (fs : FS) (p : String) (bs : List Byte) : FS :=
  ⟨(p, bs) :: fs.files⟩

/-- Model of `os.unlink`. -/
def FS.remove (fs : FS) (p : String) : FS :=
  ⟨fs.files.filter (fun e => !(e.1 == p))⟩

abbrev S3 := List (String × List Byte)

def s3Get (s3 : S3) (key : String) : Option (List Byte) :=
  match s3.find? (fun e => e.1 == key) with
  | some e => some e.2
  | none => none

/-!
Model cache resolver: `download_model_from_s3` from `src/src/handler.py`.
`MODELS_DIR` is `/workspace/models`; the S3 bucket name is the constant
`synthica-rvc-models` and is implicit in `Env.s3`.  `attempts` records, in
order, every S3 key passed to `s3.download_file` (each is one network
call), whether or not it succeeded.
-/

def MODELS_DIR : String := "/workspace/models"

def model_file (model_id : String) : String :=
  MODELS_DIR ++ "/" ++ model_id ++ ".pth"

def index_file (model_id : String) : String :=
  MODELS_DIR ++ "/" ++ model_id ++ ".index"

deriving instance DecidableEq for Except

structure DlOut where
  result : Except String (String × String)
  fs : FS
  attempts : List String
deriving DecidableEq

/-- The S3 object key `f"models/{version}/{model_id}.pth"`. -/
def s3_model_key (v model_id : String) : String :=
  "models/" ++ v ++ "/" ++ model_id ++ ".pth"

/-- The S3 object key `f"models/{version}/{model_id}.index"`. -/
def s3_index_key (v model_id : String) : String :=
  "models/" ++ v ++ "/" ++ model_id ++ ".index"

/-- The `for version in ['v2', 'v1']` loop body of `download_model_from_s3`:
try `models/{version}/{model_id}.pth`; on success also try the `.index`
sibling, swallowing its failure, and return; on failure continue with the
next version; after the last version raise
`Exception(f"Model {model_id} not found in S3")`. -/
def tryVersions (s3 : S3) (model_id : String) (fs : FS) :
    List String → DlOut
  | [] => ⟨.error ("Model " ++ model_id ++ " not found in S3"), fs, []⟩
  | v :: rest =>
    let mkey := s3_model_key v model_id
    let ikey := s3_index_key v model_id
    match s3Get s3 mkey with
    | some blob =>
      let fs1 := fs.write (model_file model_id) blob
      let fs2 :=
        match s3Get s3 ikey with
        | some iblob => fs1.write (index_file model_id) iblob
        | none => fs1
      ⟨.ok (model_file model_id,
            if fs2.hasFile (index_file model_id) then index_file model_id else ""),
       fs2, [mkey, ikey]⟩
    | none =>
      let r := tryVersions s3 model_id fs rest
      ⟨r.result, r.fs, mkey :: r.attempts⟩

/-- `download_model_from_s3` from `src/src/handler.py`: cache-hit fast path
on `{MODELS_DIR}/{model_id}.pth`, otherwise the v2-then-v1 download loop. -/
def download_model_from_s3 (s3 : S3) (model_id : String) (fs : FS) : DlOut :=
  if fs.hasFile (model_file model_id) then
    ⟨.ok (model_file model_id,
          if fs.hasFile (index_file model_id) then index_file model_id else ""),
     fs, []⟩
  else
    tryVersions s3 model_id fs ["v2", "v1"]

/-!
Request, response, engine and converter-singleton model for
`src/src/handler.py`.  The engine call `conv.convert_audio(...)` is an
opaque function from its keyword arguments and the filesystem to a new
filesystem, paired with `Except.error e` when the Python call raises
(the filesystem it returns then reflects whatever partial writes the
engine made before raising).
-/

structure EngineArgs where
  audio_input_path : String
  audio_output_path : String
  model_path : String
  index_path : String
  pitch : Int
  f0_method : String
  index_rate : Rat
  volume_envelope : Rat
  protect : Rat
  hop_length : Nat
  split_audio : Bool
  f0_autotune : Bool
  embedder_model : String
  clean_audio : Bool
  export_format : String
deriving DecidableEq

/-- The fields of `job["input"]` read by the handlers.  Absent keys are
`none`; numeric fields are modelled already typed (`int(...)`/`float(...)`
conversion of well-typed JSON numbers), floats as rationals. -/
structure JobInput where
  audio_base64 : Option String
  model_id : Option String
  pitch : Option Int
  index_ratio : Option Rat
  filter_radius : Option Int
  rms_mix_rate : Option Rat
  protect : Option Rat
  f0_method : Option String
deriving DecidableEq

structure Job where
  id : Option String
  input : JobInput
deriving DecidableEq

/-- The echoed `params` sub-dictionary of a success response. -/
structure Params where
  pitch : Int
  index_ratio : Rat
  f0_method : String
  protect : Rat
deriving DecidableEq

/-- The response dictionary: a field is `none` exactly when the key is
absent.  `src/src/handler.py` never produces an `audio_url` key; the field
is carried so that its absence is part of the model rather than of the
statements. -/
structure HResult where
  error : Option String
  audio_base64 : Option String
  audio_url : Option String
  duration_ms : Option Nat
  model_id : Option String
  params : Option Params
deriving DecidableEq

/-- A `return {"error": msg}` response (also the outer `except` response). -/
def errResult (msg : String) : HResult := ⟨some msg, none, none, none, none, none⟩

/-- The success response of `src/src/handler.py` (duration abstracted). -/
def okResult (b64 : String) (dur : Nat) (mid : String) (ps : Params) : HResult :=
  ⟨none, some b64, none, some dur, some mid, some ps⟩

/-- The `_converter` global plus instrumentation: `converter` holds the
memoized instance (identified by a construction counter), `constructions`
counts `VoiceConverter()` calls and `setups` counts `setup_environment()`
calls. -/
structure ConvSt where
  converter : Option Nat
  constructions : Nat
  setups : Nat
deriving DecidableEq

/-- `get_converter` from `src/src/handler.py`: construct on first use
(running `setup_environment()` first), then return the memoized instance. -/
def get_converter (s : ConvSt) : Nat × ConvSt :=
  match s.converter with
  | some c => (c, s)
  | none => (s.constructions, ⟨some s.constructions, s.constructions + 1, s.setups + 1⟩)

abbrev EngineFun := EngineArgs → FS → Except String Unit × FS

/-- Ambient process environment: the S3 bucket contents, the random part
of the `tempfile.NamedTemporaryFile` name the OS picks for this job, and
the engine's behavior. -/
structure Env where
  s3 : S3
  tmpName : String
  engine : EngineFun

/-- Mutable process state threaded through one handler invocation, plus a
log of the engine invocations made (`calls`). -/
structure St where
  fs : FS
  conv : ConvSt
  calls : List EngineArgs

/-- The path of `tempfile.NamedTemporaryFile(suffix=".wav", delete=False)`:
prefix `tmp`, OS-chosen unique part, suffix `.wav`, in `/tmp`. -/
def in_path (env : Env) : String := "/tmp/tmp" ++ env.tmpName ++ ".wav"

/-- The fixed output path `f"/tmp/rvc_output_{job.get('id', 'unknown')}.wav"`. -/
def out_path (job : Job) : String :=
  "/tmp/rvc_output_" ++ job.id.getD "unknown" ++ ".wav"

/-- The `valid_methods` list of the top-level `src/handler.py`. -/
def valid_methods : List String := ["rmvpe", "fcpe", "crepe", "crepe-tiny"]

/-- The f0-method validation of the top-level `src/handler.py`
(lines 123-126). -/
def validate_f0_toplevel (m : String) : String :=
  if m ∈ valid_methods then m else "rmvpe"

/-- The f0-method allow-list of `src/src/handler.py` (line 133), also used
verbatim by `runpod_api_server.py`. -/
def sls_valid_methods : List String := ["rmvpe", "fcpe", "crepe"]

/-- The f0-method validation of `src/src/handler.py` (lines 132-134). -/
def validate_f0_sls (m : String) : String :=
  if m ∈ sls_valid_methods then m else "rmvpe"

/-- The `finally` block of `src/src/handler.py`: delete whichever of the
two temp paths exist, tolerating failures. -/
def cleanupTemps (fs : FS) (inp outp : String) : FS :=
  (fs.remove inp).remove outp

/-- `handler(job)` from `src/src/handler.py`, with the outer
`except Exception` folded in: every Python-exception path ends in
`errResult` with the exception's message.  Mirrors the source order:
validate `audio_base64`; parse parameters with defaults; coerce
`f0_method`; resolve the model (S3 on cache miss); re-check the model
file; create the input temp file and decode the payload into it (a decode
failure escapes before the `try`/`finally`, so no cleanup runs); fix the
output path; then under `try`/`finally`: get the converter, invoke the
engine, require a non-empty output file, base64-encode it, and always
delete both temp paths. -/
def handler (env : Env) (st : St) (job : Job) : HResult × St :=
  let inp := job.input
  match inp.audio_base64 with
  | none => (errResult "audio_base64 is required", st)
  | some audio_b64 =>
    if audio_b64 = "" then (errResult "audio_base64 is required", st)
    else
      let model_id := inp.model_id.getD "spb"
      let pitch := inp.pitch.getD 0
      let index_ratio := inp.index_ratio.getD (3 / 4 : Rat)
      let f0_method := validate_f0_sls (inp.f0_method.getD "rmvpe")
      let protect := inp.protect.getD (33 / 100 : Rat)
      let rms_mix := inp.rms_mix_rate.getD (1 / 4 : Rat)
      let d := download_model_from_s3 env.s3 model_id st.fs
      match d.result with
      | .error e => (errResult e, { st with fs := d.fs })
      | .ok (model_path, index_path) =>
        if d.fs.hasFile model_path then
          let input_path := in_path env
          let fs2 := d.fs.write input_path []
          match b64decode audio_b64 with
          | none =>
            (errResult "Invalid base64-encoded string", { st with fs := fs2 })
          | some audio_data =>
            let fs3 := fs2.write input_path audio_data
            let output_path := out_path job
            let cs1 := (get_converter st.conv).2
            let eargs : EngineArgs :=
              { audio_input_path := input_path
                audio_output_path := output_path
                model_path := model_path
                index_path := index_path
                pitch := pitch
                f0_method := f0_method
                index_rate := index_ratio
                volume_envelope := rms_mix
                protect := protect
                hop_length := 128
                split_audio := false
                f0_autotune := false
                embedder_model := "contentvec"
                clean_audio := false
                export_format := "WAV" }
            let calls1 := st.calls ++ [eargs]
            match env.engine eargs fs3 with
            | (.error e, fs4) =>
              (errResult e, ⟨cleanupTemps fs4 input_path output_path, cs1, calls1⟩)
            | (.ok _, fs4) =>
              if fs4.hasFile output_path then
                if (fs4.read output_path).length = 0 then
                  (errResult "Output file is empty",
                   ⟨cleanupTemps fs4 input_path output_path, cs1, calls1⟩)
                else
                  (okResult (b64encode (fs4.read output_path)) 0 model_id
                     ⟨pitch, index_ratio, f0_method, protect⟩,
                   ⟨cleanupTemps fs4 input_path output_path, cs1, calls1⟩)
              else
                (errResult ("Output file not created at " ++ output_path),
                 ⟨cleanupTemps fs4 input_path output_path, cs1, calls1⟩)
        else
          (errResult ("Model file not found: " ++ model_path), { st with fs := d.fs })

/-- Iterated `get_converter` calls (state after `n` further calls). -/
def gcIter : Nat → ConvSt → ConvSt
  | 0, s => s
  | n + 1, s => gcIter n (get_converter s).2

/-!
Concrete instances used by witnesses and counterexamples.
-/

def bA : Byte := ⟨65, by omega⟩

def bB : Byte := ⟨66, by omega⟩

/-- A cache directory already holding the `spb` model file. -/
def cexFS : FS := ⟨[(model_file "spb", [bA])]⟩

def cexConv : ConvSt := ⟨none, 0, 0⟩

def cexSt : St := ⟨cexFS, cexConv, []⟩

def emptySt : St := ⟨⟨[]⟩, cexConv, []⟩

/-- An engine that raises nothing and writes a one-byte output file. -/
def okEngine : EngineFun := fun a fs => (.ok (), fs.write a.audio_output_path [bA])

def okEnv : Env := ⟨[], "abc", okEngine⟩

/-- A job with a well-formed one-byte payload (`"QQ=="` decodes to byte 65). -/
def okJob : Job :=
  ⟨some "j1", ⟨some "QQ==", some "spb", none, none, none, none, none, none⟩⟩

/-- An environment whose engine never runs: empty S3, malformed payload. -/
def cexEnv : Env := ⟨[], "abc", fun _ fs => (.ok (), fs)⟩

/-- A job whose `audio_base64` value `"a"` makes `base64.b64decode` raise. -/
def cexJob : Job :=
  ⟨some "j1", ⟨some "a", some "spb", none, none, none, none, none, none⟩⟩

/-- A job requesting the f0 method `crepe-tiny`. -/
def ctJob : Job :=
  ⟨some "j1", ⟨some "QQ==", some "spb", none, none, none, none, none,
    some "crepe-tiny"⟩⟩

/-- A job naming a model absent from the cache and from every S3 version. -/
def ghostJob : Job :=
  ⟨some "j1", ⟨some "QQ==", some "ghost", none, none, none, none, none, none⟩⟩

/-- A 5,000,000-byte output blob. -/
def bigBlob : List Byte := List.replicate 5000000 bA

/-- An engine that writes a 5,000,000-byte output file. -/
def bigEngine : EngineFun := fun a fs => (.ok (), fs.write a.audio_output_path bigBlob)

def bigEnv : Env := ⟨[], "abc", bigEngine⟩

/-- An engine that returns successfully but produces no output file. -/
def noOutEngine : EngineFun := fun a fs => (.ok (), fs.remove a.audio_output_path)

def noOutEnv : Env := ⟨[], "abc", noOutEngine⟩

/-- A cache directory holding a stale index file but no model file. -/
def staleFS : FS := ⟨[(index_file "m", [bB])]⟩

/-- An S3 store holding the v2 model file for `m` but no index file. -/
def staleS3 : S3 := [(s3_model_key "v2" "m", [bA])]

/-!
Theorems.  First the base64 round trip, then filesystem lemmas, then the
path and key disequalities the orchestration proofs need, then the claims.
-/

theorem decChar_encChar : ∀ v : Fin 64, decChar (encChar v) = some v := by decide

theorem encChar_ne_pad : ∀ v : Fin 64, ¬ encChar v = '=' := by decide

theorem b64decodeL_encodeL (bs : List Byte) :
    b64decodeL (b64encodeL bs) = some bs := by
  induction bs using b64encodeL.induct with
  | case1 => rfl
  | case2 b1 =>
    simp only [b64encodeL, b64decodeL, decChar_encChar, encChar_ne_pad,
      if_false, ite_false, if_true, and_self, ite_true, reduceIte]
    simp only [Option.some.injEq, List.cons.injEq, and_true]
    have h1 := b1.isLt
    apply Fin.ext
    simp [db1, ec1, ec2, zByte]
    omega
  | case3 b1 b2 =>
    simp only [b64encodeL, b64decodeL, decChar_encChar, encChar_ne_pad,
      if_false, ite_false, if_true, ite_true, reduceIte]
    simp only [Option.some.injEq, List.cons.injEq, and_true]
    have h1 := b1.isLt
    have h2 := b2.isLt
    constructor
    · apply Fin.ext
      simp [db1, ec1, ec2]
      omega
    · apply Fin.ext
      simp [db2, ec2, ec3, zByte]
      omega
  | case4 b1 b2 b3 rest ih =>
    simp only [b64encodeL, b64decodeL, decChar_encChar, encChar_ne_pad,
      if_false, ite_false, reduceIte, ih]
    simp only [Option.some.injEq, List.cons.injEq, and_true]
    have h1 := b1.isLt
    have h2 := b2.isLt
    have h3 := b3.isLt
    refine ⟨?_, ?_, ?_⟩
    · apply Fin.ext
      simp [db1, ec1, ec2]
      omega
    · apply Fin.ext
      simp [db2, ec2, ec3]
      omega
    · apply Fin.ext
      simp [db3, ec3, ec4]
      omega

theorem b64decode_encode (bs : List Byte) : b64decode (b64encode bs) = some bs :=
  b64decodeL_encodeL bs

theorem FS.hasFile_write_self (fs : FS) (p : String) (bs : List Byte) :
    (fs.write p bs).hasFile p = true := by
  simp [FS.write, FS.hasFile, List.find?]

theorem FS.read_write_self (fs : FS) (p : String) (bs : List Byte) :
    (fs.write p bs).read p = bs := by
  simp [FS.write, FS.read, FS.lookup, List.find?]

theorem FS.hasFile_write_ne (fs : FS) (p q : String) (bs : List Byte)
    (h : ¬ q = p) : (fs.write q bs).hasFile p = fs.hasFile p := by
  have hb : (q == p) = false := by simp [h]
  simp [FS.write, FS.hasFile, List.find?, hb]

theorem FS.read_write_ne (fs : FS) (p q : String) (bs : List Byte)
    (h : ¬ q = p) : (fs.write q bs).read p = fs.read p := by
  have hb : (q == p) = false := by simp [h]
  simp [FS.write, FS.read, FS.lookup, List.find?, hb]

theorem find?_filter_out (p q : String) (l : List (String × List Byte)) :
    List.find? (fun e => e.1 == p) (List.filter (fun e => !(e.1 == q)) l) =
      if p = q then none else List.find? (fun e => e.1 == p) l := by
  induction l with
  | nil => simp
  | cons e t ih =>
    by_cases hq : e.1 = q
    · by_cases hpq : p = q
      · subst hpq
        simp [List.filter_cons, hq, ih]
      · have hep : ¬ e.1 = p := by rw [hq]; exact fun h => hpq h.symm
        have hqp : ¬ q = p := fun h => hpq h.symm
        simp [List.filter_cons, List.find?_cons, hq, hep, ih, hpq, hqp]
    · by_cases hep : e.1 = p
      · have hpq : ¬ p = q := by rw [← hep]; exact fun h => hq h
        simp [List.filter_cons, List.find?_cons, hq, hep, hpq]
      · simp [List.filter_cons, List.find?_cons, hq, hep, ih]

theorem FS.hasFile_remove (fs : FS) (p q : String) :
    (fs.remove q).hasFile p = if p = q then false else fs.hasFile p := by
  rcases fs with ⟨l⟩
  simp only [FS.remove, FS.hasFile, find?_filter_out]
  by_cases hpq : p = q <;> simp [hpq]

theorem in_path_ne_out_path (env : Env) (job : Job) :
    ¬ in_path env = out_path job := by
  intro h
  have h2 : (in_path env).data.get? 5 = (out_path job).data.get? 5 := by rw [h]
  have e1 : (in_path env).data.get? 5 = some 't' := rfl
  have e2 : (out_path job).data.get? 5 = some 'r' := rfl
  rw [e1, e2] at h2
  exact absurd h2 (by decide)

theorem in_path_ne_model_file (env : Env) (mid : String) :
    ¬ in_path env = model_file mid := by
  intro h
  have h2 : (in_path env).data.get? 1 = (model_file mid).data.get? 1 := by rw [h]
  have e1 : (in_path env).data.get? 1 = some 't' := rfl
  have e2 : (model_file mid).data.get? 1 = some 'w' := rfl
  rw [e1, e2] at h2
  exact absurd h2 (by decide)

theorem in_path_ne_index_file (env : Env) (mid : String) :
    ¬ in_path env = index_file mid := by
  intro h
  have h2 : (in_path env).data.get? 1 = (index_file mid).data.get? 1 := by rw [h]
  have e1 : (in_path env).data.get? 1 = some 't' := rfl
  have e2 : (index_file mid).data.get? 1 = some 'w' := rfl
  rw [e1, e2] at h2
  exact absurd h2 (by decide)

theorem out_path_ne_model_file (job : Job) (mid : String) :
    ¬ out_path job = model_file mid := by
  intro h
  have h2 : (out_path job).data.get? 1 = (model_file mid).data.get? 1 := by rw [h]
  have e1 : (out_path job).data.get? 1 = some 't' := rfl
  have e2 : (model_file mid).data.get? 1 = some 'w' := rfl
  rw [e1, e2] at h2
  exact absurd h2 (by decide)

theorem out_path_ne_index_file (job : Job) (mid : String) :
    ¬ out_path job = index_file mid := by
  intro h
  have h2 : (out_path job).data.get? 1 = (index_file mid).data.get? 1 := by rw [h]
  have e1 : (out_path job).data.get? 1 = some 't' := rfl
  have e2 : (index_file mid).data.get? 1 = some 'w' := rfl
  rw [e1, e2] at h2
  exact absurd h2 (by decide)

theorem model_file_ne_index_file (mid : String) :
    ¬ model_file mid = index_file mid := by
  intro h
  have h2 := congrArg String.length h
  simp [model_file, index_file, MODELS_DIR, String.length_append] at h2
  exact absurd h2 (by decide)

theorem tryVersions_error_fs (s3 : S3) (mid : String) (fs : FS)
    (vs : List String) (e : String)
    (h : (tryVersions s3 mid fs vs).result = .error e) :
    (tryVersions s3 mid fs vs).fs = fs := by
  induction vs with
  | nil => rfl
  | cons v rest ih =>
    cases hv : s3Get s3 (s3_model_key v mid) with
    | some blob =>
      simp only [tryVersions, hv] at h
      cases hi : s3Get s3 (s3_index_key v mid) with
      | some iblob => rw [hi] at h; simp at h
      | none => rw [hi] at h; simp at h
    | none =>
      simp only [tryVersions, hv] at h ⊢
      exact ih h

theorem tryVersions_ok_shape (s3 : S3) (mid : String) (fs : FS)
    (vs : List String) (p : String × String)
    (h : (tryVersions s3 mid fs vs).result = .ok p) :
    (tryVersions s3 mid fs vs).fs.hasFile (model_file mid) = true ∧
    p = (model_file mid,
         if (tryVersions s3 mid fs vs).fs.hasFile (index_file mid)
         then index_file mid else "") := by
  induction vs with
  | nil => simp [tryVersions] at h
  | cons v rest ih =>
    cases hv : s3Get s3 (s3_model_key v mid) with
    | some blob =>
      cases hi : s3Get s3 (s3_index_key v mid) with
      | some iblob =>
        simp only [tryVersions, hv, hi] at h ⊢
        refine ⟨?_, ?_⟩
        · rw [FS.hasFile_write_ne _ _ _ _ (fun hh => model_file_ne_index_file mid hh.symm)]
          exact FS.hasFile_write_self _ _ _
        · simpa using h.symm
      | none =>
        simp only [tryVersions, hv, hi] at h ⊢
        refine ⟨FS.hasFile_write_self _ _ _, ?_⟩
        simpa using h.symm
    | none =>
      simp only [tryVersions, hv] at h ⊢
      exact ih h

theorem tryVersions_hasFile_other (s3 : S3) (mid : String) (fs : FS)
    (vs : List String) (p : String)
    (h1 : ¬ p = model_file mid) (h2 : ¬ p = index_file mid) :
    (tryVersions s3 mid fs vs).fs.hasFile p = fs.hasFile p := by
  induction vs with
  | nil => rfl
  | cons v rest ih =>
    cases hv : s3Get s3 (s3_model_key v mid) with
    | some blob =>
      cases hi : s3Get s3 (s3_index_key v mid) with
      | some iblob =>
        simp only [tryVersions, hv, hi]
        rw [FS.hasFile_write_ne _ _ _ _ (fun hh => h2 hh.symm),
            FS.hasFile_write_ne _ _ _ _ (fun hh => h1 hh.symm)]
      | none =>
        simp only [tryVersions, hv, hi]
        rw [FS.hasFile_write_ne _ _ _ _ (fun hh => h1 hh.symm)]
    | none =>
      simp only [tryVersions, hv]
      exact ih

theorem download_error_fs (s3 : S3) (mid : String) (fs : FS) (e : String)
    (h : (download_model_from_s3 s3 mid fs).result = .error e) :
    (download_model_from_s3 s3 mid fs).fs = fs := by
  unfold download_model_from_s3 at h ⊢
  by_cases hc : fs.hasFile (model_file mid) = true
  · rw [if_pos hc] at h
    simp at h
  · rw [if_neg hc] at h ⊢
    exact tryVersions_error_fs _ _ _ _ _ h

theorem download_ok_shape (s3 : S3) (mid : String) (fs : FS) (p : String × String)
    (h : (download_model_from_s3 s3 mid fs).result = .ok p) :
    (download_model_from_s3 s3 mid fs).fs.hasFile (model_file mid) = true ∧
    p = (model_file mid,
         if (download_model_from_s3 s3 mid fs).fs.hasFile (index_file mid)
         then index_file mid else "") := by
  unfold download_model_from_s3 at h ⊢
  by_cases hc : fs.hasFile (model_file mid) = true
  · rw [if_pos hc] at h ⊢
    refine ⟨hc, ?_⟩
    simpa using h.symm
  · rw [if_neg hc] at h ⊢
    exact tryVersions_ok_shape _ _ _ _ _ h

theorem download_hasFile_other (s3 : S3) (mid : String) (fs : FS) (p : String)
    (h1 : ¬ p = model_file mid) (h2 : ¬ p = index_file mid) :
    (download_model_from_s3 s3 mid fs).fs.hasFile p = fs.hasFile p := by
  unfold download_model_from_s3
  by_cases hc : fs.hasFile (model_file mid) = true
  · rw [if_pos hc]
  · rw [if_neg hc]
    exact tryVersions_hasFile_other _ _ _ _ _ h1 h2

theorem handler_shape (env : Env) (st : St) (job : Job) :
    (∃ m, (handler env st job).1 = errResult m) ∨
    (∃ b dur mid ps, (handler env st job).1 = okResult b dur mid ps) := by
  simp only [handler]
  repeat first
    | exact Or.inl ⟨_, rfl⟩
    | exact Or.inr ⟨_, _, _, _, rfl⟩
    | split

theorem handler_main (env : Env) (st : St) (job : Job) (s : String)
    (bs : List Byte) (mp ip : String)
    (h1 : job.input.audio_base64 = some s) (h2 : ¬ s = "")
    (hd : (download_model_from_s3 env.s3 (job.input.model_id.getD "spb") st.fs).result
            = .ok (mp, ip))
    (hm : (download_model_from_s3 env.s3 (job.input.model_id.getD "spb") st.fs).fs.hasFile mp
            = true)
    (hdec : b64decode s = some bs) :
    handler env st job =
      (let dfs := (download_model_from_s3 env.s3 (job.input.model_id.getD "spb") st.fs).fs
       let fs3 := (dfs.write (in_path env) []).write (in_path env) bs
       let eargs : EngineArgs :=
         { audio_input_path := in_path env
           audio_output_path := out_path job
           model_path := mp
           index_path := ip
           pitch := job.input.pitch.getD 0
           f0_method := validate_f0_sls (job.input.f0_method.getD "rmvpe")
           index_rate := job.input.index_ratio.getD (3 / 4 : Rat)
           volume_envelope := job.input.rms_mix_rate.getD (1 / 4 : Rat)
           protect := job.input.protect.getD (33 / 100 : Rat)
           hop_length := 128
           split_audio := false
           f0_autotune := false
           embedder_model := "contentvec"
           clean_audio := false
           export_format := "WAV" }
       match env.engine eargs fs3 with
       | (.error e, fs4) =>
         (errResult e,
          ⟨cleanupTemps fs4 (in_path env) (out_path job), (get_converter st.conv).2,
           st.calls ++ [eargs]⟩)
       | (.ok _, fs4) =>
         if fs4.hasFile (out_path job) then
           if (fs4.read (out_path job)).length = 0 then
             (errResult "Output file is empty",
              ⟨cleanupTemps fs4 (in_path env) (out_path job), (get_converter st.conv).2,
               st.calls ++ [eargs]⟩)
           else
             (okResult (b64encode (fs4.read (out_path job))) 0
                (job.input.model_id.getD "spb")
                ⟨job.input.pitch.getD 0, job.input.index_ratio.getD (3 / 4 : Rat),
                 validate_f0_sls (job.input.f0_method.getD "rmvpe"),
                 job.input.protect.getD (33 / 100 : Rat)⟩,
              ⟨cleanupTemps fs4 (in_path env) (out_path job), (get_converter st.conv).2,
               st.calls ++ [eargs]⟩)
         else
           (errResult ("Output file not created at " ++ out_path job),
            ⟨cleanupTemps fs4 (in_path env) (out_path job), (get_converter st.conv).2,
             st.calls ++ [eargs]⟩)) := by
  simp only [handler, h1, hd, hm, hdec]
  rw [if_neg h2]
  exact if_pos trivial

/-- C10: the request's `filter_radius` field has no effect: two jobs that
differ only in `filter_radius` produce the same response, the same final
state, and in particular the same logged engine invocations —
`src/src/handler.py` never reads the field and never passes it to
`convert_audio`. -/
theorem C10_filter_radius_unused (env : Env) (st : St) (job : Job)
    (r : Option Int) :
    handler env st { job with input := { job.input with filter_radius := r } } =
      handler env st job := by
  rcases job with ⟨jid, ⟨a, b, c, d, fr, e, f, g⟩⟩
  rfl

theorem download_cache_hit (s3 : S3) (mid : String) (fs : FS)
    (h : fs.hasFile (model_file mid) = true) :
    download_model_from_s3 s3 mid fs =
      ⟨.ok (model_file mid,
            if fs.hasFile (index_file mid) then index_file mid else ""),
       fs, []⟩ := by
  unfold download_model_from_s3
  rw [if_pos h]

theorem handler_ok_run (env : Env) (st : St) (job : Job) (s : String)
    (bs blob : List Byte)
    (h1 : job.input.audio_base64 = some s) (h2 : ¬ s = "")
    (hdec : b64decode s = some bs)
    (h4 : st.fs.hasFile (model_file (job.input.model_id.getD "spb")) = true)
    (h5 : ∀ a fs, env.engine a fs = (.ok (), fs.write a.audio_output_path blob))
    (h6 : ¬ blob = []) :
    (handler env st job).1 =
      okResult (b64encode blob) 0 (job.input.model_id.getD "spb")
        ⟨job.input.pitch.getD 0, job.input.index_ratio.getD (3 / 4 : Rat),
         validate_f0_sls (job.input.f0_method.getD "rmvpe"),
         job.input.protect.getD (33 / 100 : Rat)⟩ := by
  have hchit := download_cache_hit env.s3 (job.input.model_id.getD "spb") st.fs h4
  have hd : (download_model_from_s3 env.s3 (job.input.model_id.getD "spb") st.fs).result
      = .ok (model_file (job.input.model_id.getD "spb"),
             if st.fs.hasFile (index_file (job.input.model_id.getD "spb"))
             then index_file (job.input.model_id.getD "spb") else "") := by
    rw [hchit]
  have hm : (download_model_from_s3 env.s3 (job.input.model_id.getD "spb") st.fs).fs.hasFile
      (model_file (job.input.model_id.getD "spb")) = true := by
    rw [hchit]
    exact h4
  rw [handler_main env st job s bs _ _ h1 h2 hd hm hdec]
  simp only [h5, FS.hasFile_write_self, FS.read_write_self]
  have hlen : ¬ blob.length = 0 := fun hh => h6 (List.length_eq_zero.mp hh)
  simp only [hlen, if_true, if_false, ite_false, ite_true, reduceIte]

/-- C4: a cache hit (the model file already present in the cache directory)
returns that path, with the sibling index path when it exists and the empty
string otherwise, making zero S3 calls and leaving the filesystem
untouched; and whenever a resolution returns a path pair, resolving the
same model id again returns the identical pair while making zero S3 calls
and leaving the filesystem untouched — so two sequential resolutions of
one model id download at most once (only the first can touch the
network). -/
theorem C4_cache_hit_idempotent (s3 : S3) (mid : String) (fs : FS) :
    (fs.hasFile (model_file mid) = true →
      download_model_from_s3 s3 mid fs =
        ⟨.ok (model_file mid,
              if fs.hasFile (index_file mid) then index_file mid else ""),
         fs, []⟩) ∧
    (∀ p, (download_model_from_s3 s3 mid fs).result = .ok p →
      download_model_from_s3 s3 mid (download_model_from_s3 s3 mid fs).fs =
        ⟨.ok p, (download_model_from_s3 s3 mid fs).fs, []⟩) := by
  refine ⟨fun h => download_cache_hit s3 mid fs h, fun p hp => ?_⟩
  obtain ⟨hhas, hshape⟩ := download_ok_shape s3 mid fs p hp
  rw [download_cache_hit s3 mid _ hhas, hshape]

/-- C4 witness: for a cache directory already holding `spb.pth` (and no
index file), resolution over an empty store returns the cached path with an
empty index path, no S3 calls, and an unchanged filesystem; a second
resolution after a successful one behaves identically. -/
theorem C4_cache_hit_idempotent_witness :
    download_model_from_s3 [] "spb" cexFS =
      ⟨.ok (model_file "spb", ""), cexFS, []⟩ ∧
    download_model_from_s3 [] "spb" (download_model_from_s3 [] "spb" cexFS).fs =
      ⟨.ok (model_file "spb", ""), (download_model_from_s3 [] "spb" cexFS).fs, []⟩ := by
  constructor
  · have h := (C4_cache_hit_idempotent [] "spb" cexFS).1 (by decide)
    rw [h]
    decide
  · have h := (C4_cache_hit_idempotent [] "spb" cexFS).2 (model_file "spb", "")
      (by decide)
    rw [h]

/-- C9: `get_converter` constructs the engine at most once per process:
from a state with no memoized instance, the first call runs
`setup_environment` once and `VoiceConverter()` once, memoizes the
instance, and every later call returns that identical instance while
changing nothing. -/
theorem C9_converter_singleton (s0 : ConvSt) (h : s0.converter = none) :
    (get_converter s0).2.constructions = s0.constructions + 1 ∧
    (get_converter s0).2.setups = s0.setups + 1 ∧
    (get_converter s0).2.converter = some (get_converter s0).1 ∧
    (∀ n, gcIter n (get_converter s0).2 = (get_converter s0).2) ∧
    (∀ n, (get_converter (gcIter n (get_converter s0).2)).1 = (get_converter s0).1) := by
  have hstable : ∀ s : ConvSt, ∀ c, s.converter = some c → get_converter s = (c, s) := by
    intro s c hc
    simp [get_converter, hc]
  have h1 : get_converter s0 =
      (s0.constructions, ⟨some s0.constructions, s0.constructions + 1, s0.setups + 1⟩) := by
    simp [get_converter, h]
  have hfix : ∀ n, gcIter n (get_converter s0).2 = (get_converter s0).2 := by
    intro n
    induction n with
    | zero => rfl
    | succ k ih =>
      show gcIter k (get_converter (get_converter s0).2).2 = _
      rw [hstable (get_converter s0).2 (get_converter s0).1 (by rw [h1])]
      exact ih
  refine ⟨by rw [h1], by rw [h1], by rw [h1], hfix, fun n => ?_⟩
  rw [hfix n, hstable (get_converter s0).2 (get_converter s0).1 (by rw [h1])]

/-- C9 witness: from the fresh process state, five further calls after the
first change nothing and return the instance made by the first call, which
performed exactly one construction and one environment setup. -/
theorem C9_converter_singleton_witness :
    (get_converter cexConv).2.constructions = 1 ∧
    (get_converter cexConv).2.setups = 1 ∧
    gcIter 5 (get_converter cexConv).2 = (get_converter cexConv).2 ∧
    (get_converter (gcIter 5 (get_converter cexConv).2)).1 = (get_converter cexConv).1 := by
  have h := C9_converter_singleton cexConv rfl
  exact ⟨h.1, h.2.1, h.2.2.2.1 5, h.2.2.2.2 5⟩

/-- C1: the handler is total and returns a well-formed response for every
request: either a success response (no `error` key; `audio_base64`,
`model_id` and `params` present) or a failure response whose only key is
`error` with a string message — the presence of `error` is the sole
failure signal; and when the requested model is neither cached nor present
under any S3 version, the returned error message is
`Model {model_id} not found in S3`, which contains the model id. -/
theorem C1_structured_error_responses (env : Env) (st : St) (job : Job) :
    (((handler env st job).1.error = none ∧
      (handler env st job).1.audio_base64.isSome = true ∧
      (handler env st job).1.model_id.isSome = true ∧
      (handler env st job).1.params.isSome = true) ∨
     (∃ m, (handler env st job).1.error = some m ∧
       (handler env st job).1.audio_base64 = none ∧
       (handler env st job).1.audio_url = none ∧
       (handler env st job).1.duration_ms = none ∧
       (handler env st job).1.model_id = none ∧
       (handler env st job).1.params = none)) ∧
    (∀ s, job.input.audio_base64 = some s → ¬ s = "" →
      st.fs.hasFile (model_file (job.input.model_id.getD "spb")) = false →
      s3Get env.s3 (s3_model_key "v2" (job.input.model_id.getD "spb")) = none →
      s3Get env.s3 (s3_model_key "v1" (job.input.model_id.getD "spb")) = none →
      (handler env st job).1.error =
        some ("Model " ++ job.input.model_id.getD "spb" ++ " not found in S3") ∧
      ∃ pre post, (handler env st job).1.error =
        some (pre ++ job.input.model_id.getD "spb" ++ post)) := by
  constructor
  · rcases handler_shape env st job with ⟨m, hm⟩ | ⟨b, dur, mid, ps, hm⟩
    · rw [hm]
      exact Or.inr ⟨m, rfl, rfl, rfl, rfl, rfl, rfl⟩
    · rw [hm]
      exact Or.inl ⟨rfl, rfl, rfl, rfl⟩
  · intro s h1 h2 hmiss hv2 hv1
    have herr : (download_model_from_s3 env.s3 (job.input.model_id.getD "spb") st.fs).result
        = .error ("Model " ++ job.input.model_id.getD "spb" ++ " not found in S3") := by
      unfold download_model_from_s3
      simp only [hmiss, Bool.false_eq_true, if_false, ite_false, reduceIte]
      simp only [tryVersions, hv2, hv1]
    simp only [handler, h1, herr]
    rw [if_neg h2]
    exact ⟨rfl, "Model ", " not found in S3", rfl⟩

/-- C1 witness: a request for the unknown model `ghost` against an empty
cache and an empty store yields the error message naming the model. -/
theorem C1_structured_error_responses_witness :
    (handler okEnv emptySt ghostJob).1.error =
      some ("Model " ++ "ghost" ++ " not found in S3") := by
  have h := (C1_structured_error_responses okEnv emptySt ghostJob).2 "QQ==" rfl
    (by decide) (by decide) (by decide) (by decide)
  exact h.1

/-- C5 counterexample: on a cache miss where the v2 model fetch succeeds
but the v2 index fetch fails, a stale `.index` file already on disk makes
the resolver return that sibling index path rather than the empty string
the claim promises for an index-fetch failure. -/
theorem C5_stale_index_cex :
    staleFS.hasFile (model_file "m") = false ∧
    s3Get staleS3 (s3_model_key "v2" "m") = some [bA] ∧
    s3Get staleS3 (s3_index_key "v2" "m") = none ∧
    (download_model_from_s3 staleS3 "m" staleFS).result =
      .ok (model_file "m", index_file "m") ∧
    ¬ index_file "m" = "" := by
  decide

/-- C5 amended: on a cache miss the resolver tries v2 then v1 in that
order; the first version whose model-file fetch succeeds wins (its index
fetch is attempted and its failure tolerated, the index path then being
the sibling index file path when such a file exists on disk and the empty
string otherwise — in particular the empty string when no stale index file
was present); if neither version has the model file, resolution fails with
an error naming the model id after exactly the two model-key attempts. -/
theorem C5_version_fallback (s3 : S3) (mid : String) (fs : FS)
    (hmiss : fs.hasFile (model_file mid) = false) :
    (∀ blob, s3Get s3 (s3_model_key "v2" mid) = some blob →
      (download_model_from_s3 s3 mid fs).result =
        .ok (model_file mid,
             if (download_model_from_s3 s3 mid fs).fs.hasFile (index_file mid)
             then index_file mid else "") ∧
      (download_model_from_s3 s3 mid fs).attempts =
        [s3_model_key "v2" mid, s3_index_key "v2" mid]) ∧
    (s3Get s3 (s3_model_key "v2" mid) = none →
     ∀ blob, s3Get s3 (s3_model_key "v1" mid) = some blob →
      (download_model_from_s3 s3 mid fs).result =
        .ok (model_file mid,
             if (download_model_from_s3 s3 mid fs).fs.hasFile (index_file mid)
             then index_file mid else "") ∧
      (download_model_from_s3 s3 mid fs).attempts =
        [s3_model_key "v2" mid, s3_model_key "v1" mid, s3_index_key "v1" mid]) ∧
    (s3Get s3 (s3_model_key "v2" mid) = none →
     s3Get s3 (s3_model_key "v1" mid) = none →
      (download_model_from_s3 s3 mid fs).result =
        .error ("Model " ++ mid ++ " not found in S3") ∧
      (download_model_from_s3 s3 mid fs).attempts =
        [s3_model_key "v2" mid, s3_model_key "v1" mid]) ∧
    (∀ blob, s3Get s3 (s3_model_key "v2" mid) = some blob →
     s3Get s3 (s3_index_key "v2" mid) = none →
     fs.hasFile (index_file mid) = false →
      (download_model_from_s3 s3 mid fs).result = .ok (model_file mid, "")) := by
  unfold download_model_from_s3
  simp only [hmiss, Bool.false_eq_true, if_false, ite_false, reduceIte]
  refine ⟨fun blob hv2 => ?_, fun hv2 blob hv1 => ?_, fun hv2 hv1 => ?_,
    fun blob hv2 hi hstale => ?_⟩
  · cases hi : s3Get s3 (s3_index_key "v2" mid) with
    | some iblob => simp only [tryVersions, hv2, hi]; exact ⟨trivial, trivial⟩
    | none => simp only [tryVersions, hv2, hi]; exact ⟨trivial, trivial⟩
  · cases hi : s3Get s3 (s3_index_key "v1" mid) with
    | some iblob => simp only [tryVersions, hv2, hv1, hi]; exact ⟨trivial, trivial⟩
    | none => simp only [tryVersions, hv2, hv1, hi]; exact ⟨trivial, trivial⟩
  · simp only [tryVersions, hv2, hv1]
    exact ⟨trivial, trivial⟩
  · simp only [tryVersions, hv2, hi]
    rw [FS.hasFile_write_ne _ _ _ _ (fun hh => model_file_ne_index_file mid hh)]
    simp only [hstale, Bool.false_eq_true, if_false, ite_false, reduceIte]

/-- C5 witness: a model absent from both versions fails with the error
naming it, after attempting exactly the v2 and v1 model keys in order. -/
theorem C5_version_fallback_witness :
    (download_model_from_s3 staleS3 "ghost" ⟨[]⟩).result =
      .error ("Model " ++ "ghost" ++ " not found in S3") ∧
    (download_model_from_s3 staleS3 "ghost" ⟨[]⟩).attempts =
      [s3_model_key "v2" "ghost", s3_model_key "v1" "ghost"] :=
  (C5_version_fallback staleS3 "ghost" ⟨[]⟩ (by decide)).2.2.1 (by decide) (by decide)

/-- C6 counterexample: `crepe-tiny` is one of the four values the claim
says are passed through (it is in the top-level handler's `valid_methods`),
yet the serverless handler `src/src/handler.py` invokes the engine with
`rmvpe` for a `crepe-tiny` request — its allow-list has only three
entries. -/
theorem C6_crepe_tiny_coerced_cex :
    ctJob.input.f0_method = some "crepe-tiny" ∧
    "crepe-tiny" ∈ valid_methods ∧
    ((handler okEnv cexSt ctJob).2.calls.map (fun a => a.f0_method)) = ["rmvpe"] := by
  decide

/-- C6 amended: every engine invocation made by the serverless handler
carries `f0_method` coerced through its three-entry allow-list
`rmvpe`/`fcpe`/`crepe` — an allowed value passes through unchanged, any
other value (including `crepe-tiny`) is silently replaced by `rmvpe`;
the four-entry list admitting `crepe-tiny` exists only in the top-level
`src/handler.py` variant. -/
theorem C6_f0_coercion (env : Env) (st : St) (job : Job) (h : st.calls = []) :
    ((handler env st job).2.calls.all
      (fun a => a.f0_method ==
        validate_f0_sls (job.input.f0_method.getD "rmvpe"))) = true ∧
    validate_f0_sls "crepe-tiny" = "rmvpe" ∧
    (sls_valid_methods.all (fun m => validate_f0_sls m == m)) = true ∧
    (valid_methods.all (fun m => validate_f0_toplevel m == m)) = true := by
  refine ⟨?_, by decide, by decide, by decide⟩
  simp only [handler]
  repeat' split
  all_goals simp [h]

/-- C6 witness: the coercion law applied to the concrete `crepe-tiny`
request of the counterexample run. -/
theorem C6_f0_coercion_witness :
    ((handler okEnv cexSt ctJob).2.calls.all
      (fun a => a.f0_method ==
        validate_f0_sls (ctJob.input.f0_method.getD "rmvpe"))) = true ∧
    validate_f0_sls "crepe-tiny" = "rmvpe" ∧
    (sls_valid_methods.all (fun m => validate_f0_sls m == m)) = true ∧
    (valid_methods.all (fun m => validate_f0_toplevel m == m)) = true :=
  C6_f0_coercion okEnv cexSt ctJob rfl

/-- C7: when the engine call returns without raising but leaves the output
file missing or empty, the handler returns an error response — with one of
the two dedicated messages, distinct from any engine exception text — and
no audio payload: the orchestrator checks the filesystem, not merely the
absence of a thrown error. -/
theorem C7_no_output_is_error (env : Env) (st : St) (job : Job) (s : String)
    (bs : List Byte)
    (h1 : job.input.audio_base64 = some s) (h2 : ¬ s = "")
    (hdec : b64decode s = some bs)
    (h4 : st.fs.hasFile (model_file (job.input.model_id.getD "spb")) = true)
    (h5 : ∀ a fs, ∃ fs4, env.engine a fs = (.ok (), fs4) ∧
      (fs4.hasFile a.audio_output_path = false ∨
       fs4.read a.audio_output_path = [])) :
    ((handler env st job).1.error =
        some ("Output file not created at " ++ out_path job) ∨
     (handler env st job).1.error = some "Output file is empty") ∧
    (handler env st job).1.audio_base64 = none := by
  have hchit := download_cache_hit env.s3 (job.input.model_id.getD "spb") st.fs h4
  have hd : (download_model_from_s3 env.s3 (job.input.model_id.getD "spb") st.fs).result
      = .ok (model_file (job.input.model_id.getD "spb"),
             if st.fs.hasFile (index_file (job.input.model_id.getD "spb"))
             then index_file (job.input.model_id.getD "spb") else "") := by
    rw [hchit]
  have hm : (download_model_from_s3 env.s3 (job.input.model_id.getD "spb") st.fs).fs.hasFile
      (model_file (job.input.model_id.getD "spb")) = true := by
    rw [hchit]
    exact h4
  rw [handler_main env st job s bs _ _ h1 h2 hd hm hdec]
  dsimp only
  obtain ⟨fs4, heng, hdisj⟩ := h5 _ _
  rw [heng]
  dsimp only at hdisj ⊢
  rcases hdisj with hnf | hzr
  · simp only [hnf, Bool.false_eq_true, if_false, ite_false, reduceIte]
    exact ⟨Or.inl rfl, rfl⟩
  · by_cases hb : fs4.hasFile (out_path job) = true
    · simp only [hb, hzr, List.length_nil, if_true, ite_true, reduceIte]
      exact ⟨Or.inr rfl, rfl⟩
    · simp only [Bool.not_eq_true] at hb
      simp only [hb, Bool.false_eq_true, if_false, ite_false, reduceIte]
      exact ⟨Or.inl rfl, rfl⟩

/-- C7 witness: an engine that returns successfully but produces no output
file yields the `Output file not created at ...` error for the cached
`spb` model. -/
theorem C7_no_output_is_error_witness :
    ((handler noOutEnv cexSt okJob).1.error =
        some ("Output file not created at " ++ out_path okJob) ∨
     (handler noOutEnv cexSt okJob).1.error = some "Output file is empty") ∧
    (handler noOutEnv cexSt okJob).1.audio_base64 = none :=
  C7_no_output_is_error noOutEnv cexSt okJob "QQ==" [bA] rfl (by decide)
    (by decide) (by decide)
    (fun a fs => ⟨fs.remove a.audio_output_path, rfl,
      Or.inl (by simp [FS.hasFile_remove])⟩)

/-- C8: for a successful conversion whose output is below the 5,000,000
byte threshold, the response carries `audio_base64`, and base64-decoding
that field yields exactly the bytes of the output file the engine wrote
(the code inline-encodes the output unconditionally, so in particular for
sub-threshold outputs). -/
theorem C8_inline_roundtrip (env : Env) (st : St) (job : Job) (s : String)
    (bs blob : List Byte)
    (h1 : job.input.audio_base64 = some s) (h2 : ¬ s = "")
    (hdec : b64decode s = some bs)
    (h4 : st.fs.hasFile (model_file (job.input.model_id.getD "spb")) = true)
    (h5 : ∀ a fs, env.engine a fs = (.ok (), fs.write a.audio_output_path blob))
    (h6 : ¬ blob = []) (h7 : blob.length < 5000000) :
    (handler env st job).1.error = none ∧
    (handler env st job).1.audio_base64 = some (b64encode blob) ∧
    b64decode (b64encode blob) = some blob := by
  have hr := handler_ok_run env st job s bs blob h1 h2 hdec h4 h5 h6
  rw [hr]
  exact ⟨rfl, rfl, b64decode_encode blob⟩

/-- C8 witness: a one-byte output round-trips through the inline
`audio_base64` channel exactly. -/
theorem C8_inline_roundtrip_witness :
    (handler okEnv cexSt okJob).1.error = none ∧
    (handler okEnv cexSt okJob).1.audio_base64 = some (b64encode [bA]) ∧
    b64decode (b64encode [bA]) = some [bA] :=
  C8_inline_roundtrip okEnv cexSt okJob "QQ==" [bA] [bA] rfl (by decide)
    (by decide) (by decide) (fun a fs => rfl) (by decide) (by decide)

/-- C2 counterexample: a malformed payload (`"a"`) makes `base64.b64decode`
raise inside the `NamedTemporaryFile` block, before the `try`/`finally`
cleanup is entered: the handler returns an error result, yet the job's
input temp file still exists on disk when it returns. -/
theorem C2_decode_leak_cex :
    (handler cexEnv cexSt cexJob).1 = errResult "Invalid base64-encoded string" ∧
    (handler cexEnv cexSt cexJob).2.fs.hasFile (in_path cexEnv) = true := by
  decide

/-- C2 amended: for temp paths that did not pre-exist, the output temp file
never exists after the handler returns, and the input temp file does not
exist after the handler returns on every path except a payload-decode
failure occurring after the input temp file was created — that one path
escapes the cleanup block and leaks the input temp file (see the
counterexample). -/
theorem C2_cleanup (env : Env) (st : St) (job : Job)
    (hin : st.fs.hasFile (in_path env) = false)
    (hout : st.fs.hasFile (out_path job) = false) :
    (handler env st job).2.fs.hasFile (out_path job) = false ∧
    ((∀ s, job.input.audio_base64 = some s → (b64decode s).isSome = true) →
      (handler env st job).2.fs.hasFile (in_path env) = false) := by
  simp only [handler]
  split
  · exact ⟨hout, fun _ => hin⟩
  · rename_i s heqa
    split
    · exact ⟨hout, fun _ => hin⟩
    · split
      · rename_i e heq
        have hfs := download_error_fs env.s3 (job.input.model_id.getD "spb") st.fs e heq
        refine ⟨?_, fun _ => ?_⟩
        · rw [hfs]
          exact hout
        · rw [hfs]
          exact hin
      · rename_i mp ip heq
        obtain ⟨hhas, hshape⟩ :=
          download_ok_shape env.s3 (job.input.model_id.getD "spb") st.fs (mp, ip) heq
        have hmp : mp = model_file (job.input.model_id.getD "spb") :=
          congrArg Prod.fst hshape
        split
        · split
          · rename_i hdecn
            refine ⟨?_, fun hdall => ?_⟩
            · rw [FS.hasFile_write_ne _ _ _ _ (in_path_ne_out_path env job),
                download_hasFile_other env.s3 (job.input.model_id.getD "spb") st.fs
                  (out_path job) (out_path_ne_model_file job _)
                  (out_path_ne_index_file job _)]
              exact hout
            · exfalso
              have hsome := hdall s heqa
              rw [hdecn] at hsome
              simp at hsome
          · rename_i bs hdecs
            split
            · exact ⟨by simp [cleanupTemps, FS.hasFile_remove],
                fun _ => by simp [cleanupTemps, FS.hasFile_remove]⟩
            · split
              · split
                · exact ⟨by simp [cleanupTemps, FS.hasFile_remove],
                    fun _ => by simp [cleanupTemps, FS.hasFile_remove]⟩
                · exact ⟨by simp [cleanupTemps, FS.hasFile_remove],
                    fun _ => by simp [cleanupTemps, FS.hasFile_remove]⟩
              · exact ⟨by simp [cleanupTemps, FS.hasFile_remove],
                  fun _ => by simp [cleanupTemps, FS.hasFile_remove]⟩
        · rename_i hguard
          exfalso
          rw [hmp] at hguard
          exact hguard hhas

/-- C2 witness: a successful conversion of a well-formed payload leaves
neither temp file on disk. -/
theorem C2_cleanup_witness :
    (handler okEnv cexSt okJob).2.fs.hasFile (out_path okJob) = false ∧
    ((∀ s, okJob.input.audio_base64 = some s → (b64decode s).isSome = true) →
      (handler okEnv cexSt okJob).2.fs.hasFile (in_path okEnv) = false) :=
  C2_cleanup okEnv cexSt okJob (by decide) (by decide)

/-- C3 counterexample: a successful conversion whose output file holds
5,000,000 bytes — at the claimed threshold — still returns the inline
`audio_base64` payload and no `audio_url` key: the handler has no size
threshold and no remote upload at all. -/
theorem C3_no_threshold_cex :
    bigBlob.length = 5000000 ∧
    (handler bigEnv cexSt okJob).1.error = none ∧
    (handler bigEnv cexSt okJob).1.audio_url = none ∧
    (handler bigEnv cexSt okJob).1.audio_base64 = some (b64encode bigBlob) := by
  have hlen : bigBlob.length = 5000000 := List.length_replicate 5000000 bA
  have h6 : ¬ bigBlob = [] := by
    intro hh
    rw [hh] at hlen
    simp at hlen
  have hr := handler_ok_run bigEnv cexSt okJob "QQ==" [bA] bigBlob rfl (by decide)
    (by decide) (by decide) (fun a fs => rfl) h6
  rw [hr]
  exact ⟨hlen, rfl, rfl, rfl⟩

/-- C3 amended: result delivery is inline-only: every successful response
carries `audio_base64` and no response ever carries `audio_url`, whatever
the output size — no threshold is applied and no remote upload is
attempted. -/
theorem C3_always_inline_never_url (env : Env) (st : St) (job : Job)
    (h : (handler env st job).1.error = none) :
    (handler env st job).1.audio_url = none ∧
    ¬ (handler env st job).1.audio_base64 = none := by
  rcases handler_shape env st job with ⟨m, hm⟩ | ⟨b, dur, mid, ps, hm⟩
  · rw [hm] at h
    exact absurd h (by simp [errResult])
  · rw [hm]
    exact ⟨rfl, by simp [okResult]⟩

/-- C3 witness: the inline-only delivery law at a concrete successful
one-byte conversion. -/
theorem C3_always_inline_never_url_witness :
    (handler okEnv cexSt okJob).1.audio_url = none ∧
    ¬ (handler okEnv cexSt okJob).1.audio_base64 = none :=
  C3_always_inline_never_url okEnv cexSt okJob (by decide)
